import Mathlib

/-!
Shallow embedding of the micronforce-gbt server (two variants):
the SQLite-backed server in `src/unnamed/part_000` and the in-memory
server in `src/micronforce_inhouse/server/index.js`.

Modelling conventions:
* JavaScript strings are `String`; a value that may be `undefined`
  (absent query/body field, absent header, unset environment variable)
  is `Option String`.
* The JS truthiness test on a possibly-undefined string (`x || y`,
  `if (x) ...`) is captured by `truthy` and `orElseStr`.
* `Date.now()` and bucket timestamps are `Nat` milliseconds.
* The upstream HTTP client (`fetch` to the provider) is a function
  parameter of each handler; applying it records exactly what was sent.
* The SQLite log table is a `List LogEntry` in insertion order with
  autoincrement ids; `JSON.stringify` of a message list is modelled by
  `serializeMessages` (with basic JSON character escaping).
* `better-sqlite3` binds only null, numbers, strings, bigints and
  buffers: a named parameter that is JS `undefined` (an absent body
  field after destructuring) makes `run()` throw a TypeError before the
  statement executes, so the settings route answers 500 and the row is
  untouched; only an explicit JSON `null` reaches SQL as NULL, where
  `coalesce` keeps the old column. A body field is therefore
  `Option (Option String)`: absent, null, or a string.
* Core `String.toLower` and `String.trim` do not reduce in the kernel,
  so the file carries list-level equivalents (`lowerStr`, `trimStr`)
  restricted to the ASCII behaviour the server relies on.
-/

namespace MicronForce

/-- Lowercase one character, ASCII range only (models the effect of
JS `toLowerCase` on the ASCII engine names used by the server). -/
def lowerChar (c : Char) : Char :=
  if 65 ≤ c.toNat ∧ c.toNat ≤ 90 then Char.ofNat (c.toNat + 32) else c

/-- Lowercase a string characterwise (JS `String.prototype.toLowerCase`). -/
def lowerStr (s : String) : String := ⟨s.data.map lowerChar⟩

/-- Whitespace test used by `trimStr` (JS `trim` on the usual ASCII blanks). -/
def isWs (c : Char) : Bool := c = ' ' || c = '\t' || c = '\n' || c = '\r'

/-- Strip leading and trailing whitespace (JS `String.prototype.trim`). -/
def trimStr (s : String) : String :=
  ⟨((s.data.dropWhile isWs).reverse.dropWhile isWs).reverse⟩

/-- Substring occurrence test on character lists. -/
def hasInfix : List Char → List Char → Bool
  | [], pat => pat.isEmpty
  | c :: t, pat => pat.isPrefixOf (c :: t) || hasInfix t pat

/-- `containsStr s pat` holds when `pat` occurs inside `s`
(JS `String.prototype.includes`). -/
def containsStr (s pat : String) : Bool := hasInfix s.data pat.data

/-- JS truthiness of a possibly-undefined string:
false exactly for `undefined` and the empty string. -/
def truthy (x : Option String) : Bool :=
  match x with
  | none => false
  | some s => s ≠ ""

/-- JS `x || y` for a possibly-undefined string `x` with fallback `y`. -/
def orElseStr (x : Option String) (y : String) : String :=
  match x with
  | none => y
  | some s => if s = "" then y else s

/-! ### Rate limiter (`src/unnamed/part_000`, function `allow`) -/

/-- One per-key entry of the `bucket` map: `count` requests seen in the
current window and `reset`, the time the window ends. -/
structure RateBucket where
  count : Nat
  reset : Nat
deriving DecidableEq

/-- The body of `allow(ip, limit, windowMs)` for one key whose current
bucket is `b` (`none` when the map has no entry for the key):
take the stored bucket or a fresh one, reset it when `now` is strictly
past `reset`, increment, and report whether the count is within `limit`.
Returns the decision and the bucket stored back into the map. -/
def allow (b : Option RateBucket) (now limit windowMs : Nat) :
    Bool × RateBucket :=
  let b0 := b.getD { count := 0, reset := now + windowMs }
  let b1 := if b0.reset < now then { count := 0, reset := now + windowMs } else b0
  let b2 : RateBucket := { count := b1.count + 1, reset := b1.reset }
  (decide (b2.count ≤ limit), b2)

/-- Successive calls of `allow` for one key at the given times:
the list of decisions and the final stored bucket. -/
def allowList (b : Option RateBucket) (ts : List Nat) (limit windowMs : Nat) :
    List Bool × Option RateBucket :=
  match ts with
  | [] => ([], b)
  | t :: rest =>
    let r := allow b t limit windowMs
    let rs := allowList (some r.2) rest limit windowMs
    (r.1 :: rs.1, rs.2)

/-! ### Settings -/

/-- The single `chat_settings` row of the SQLite variant (the columns
hold text and are never NULL: each has a default and updates coalesce). -/
structure Settings where
  model : String
  tts_engine : String
  tts_voice : String
  system_prompt : String
deriving DecidableEq

/-- Body of a `PUT /api/super/settings` request in the SQLite variant:
each field is absent — destructured to `undefined`, which better-sqlite3
refuses to bind (`none`) — or an explicit JSON null bound as SQL NULL
(`some none`), or a string (`some (some v)`). -/
structure SettingsUpdate where
  model : Option (Option String)
  tts_engine : Option (Option String)
  tts_voice : Option (Option String)
  system_prompt : Option (Option String)
deriving DecidableEq

/-- What the SQLite `PUT /api/super/settings` route sends back:
the re-selected row on success, or the 500 produced by Express's default
error handler when `run()` throws a bind TypeError. -/
inductive PutSettingsResponse where
  | ok (row : Settings) : PutSettingsResponse
  | bindError (status : Nat) : PutSettingsResponse
deriving DecidableEq

/-- The SQLite `PUT /api/super/settings` handler. If any destructured
field is `undefined`, `run()` throws before the update executes — the
route answers 500 and the row is untouched. With all four parameters
bound, `set model = coalesce(@model, model), ...` runs: a string binding
(even an empty string) replaces the column, a NULL binding keeps it.
Returns the HTTP response and the `chat_settings` row after the
request. -/
def putSettings (s : Settings) (u : SettingsUpdate) :
    PutSettingsResponse × Settings :=
  match u with
  | ⟨some m, some e, some v, some p⟩ =>
    (.ok ⟨m.getD s.model, e.getD s.tts_engine, v.getD s.tts_voice,
          p.getD s.system_prompt⟩,
     ⟨m.getD s.model, e.getD s.tts_engine, v.getD s.tts_voice,
      p.getD s.system_prompt⟩)
  | _ => (.bindError 500, s)

/-- The in-memory variant's `settings` object (no system prompt field). -/
structure SettingsMem where
  model : String
  tts_engine : String
  tts_voice : String
deriving DecidableEq

/-- Body of a `PUT /api/super/settings` request in the in-memory variant. -/
structure SettingsUpdateMem where
  model : Option String
  tts_engine : Option String
  tts_voice : Option String
deriving DecidableEq

/-- The in-memory `PUT /api/super/settings` handler:
`if (model) settings.model = model; ...` — a field is replaced only when
present and non-empty (JS truthiness), captured by `orElseStr`. -/
def putSettingsMem (s : SettingsMem) (u : SettingsUpdateMem) : SettingsMem :=
  { model := orElseStr u.model s.model,
    tts_engine := orElseStr u.tts_engine s.tts_engine,
    tts_voice := orElseStr u.tts_voice s.tts_voice }

/-! ### Auth guards -/

/-- Outcome of a route guard: either `next()` is called and the handler
runs (`pass`), or the guard responds itself with a status code and an
error string and the handler is never reached (`reject`). -/
inductive GuardResult where
  | pass : GuardResult
  | reject (status : Nat) (error : String) : GuardResult
deriving DecidableEq

/-- `requireSuperadmin` of the SQLite variant. `role` is the value
resolved by `getRoleFromCookie` (`none` when no valid claim), `adminTok`
is the `ADMIN_BYPASS_TOKEN` environment value, `header` the request's
`x-admin` header. Passes on role `superadmin`, or on a truthy configured
token exactly equal (`===`) to the header; otherwise 401. -/
def requireSuperadmin (role adminTok header : Option String) : GuardResult :=
  if role = some "superadmin" then .pass
  else if truthy adminTok = true ∧ header = adminTok then .pass
  else .reject 401 "Superadmin required"

/-- `requireAdmin` of the in-memory variant (no role resolution at all):
401 `admin_token_missing` when no token is configured, 401 `unauthorized`
when the `x-admin` header is not exactly the token, pass otherwise. -/
def requireAdmin (adminTok header : Option String) : GuardResult :=
  if truthy adminTok = false then .reject 401 "admin_token_missing"
  else if header ≠ adminTok then .reject 401 "unauthorized"
  else .pass

/-! ### Messages, upstream responses, log entries -/

/-- One chat message: a role/content pair. -/
structure Msg where
  role : String
  content : String
deriving DecidableEq

/-- The message-assembly prologue shared verbatim by both chat handlers
of the SQLite variant: start empty, push a system message when the
stored prompt is truthy after `trim()`, then push the request messages. -/
def buildMessages (system_prompt : String) (messages : List Msg) : List Msg :=
  (if trimStr system_prompt ≠ "" then [⟨"system", system_prompt⟩] else []) ++ messages

/-- The `usage` object of a chat-completion response; each counter may
be absent. -/
structure Usage where
  prompt_tokens : Option Nat
  completion_tokens : Option Nat
deriving DecidableEq

/-- Parsed JSON body of an upstream chat-completion response: for each
choice, the optional `message.content` string; plus the optional usage. -/
structure UpstreamBody where
  choices : List (Option String)
  usage : Option Usage
deriving DecidableEq

/-- An upstream HTTP response: `ok`/`status` of the fetch `Response`
plus the parsed JSON body. -/
structure UpstreamResp where
  ok : Bool
  status : Nat
  body : UpstreamBody
deriving DecidableEq

/-- `data?.choices?.[0]?.message?.content ?? ''`. -/
def firstChoiceContent (b : UpstreamBody) : String :=
  match b.choices with
  | some c :: _ => c
  | _ => ""

/-- JS `n || null` on an optional token counter: `0` is falsy, so both
absence and zero become null. -/
def orNullNat (x : Option Nat) : Option Nat :=
  match x with
  | none => none
  | some n => if n = 0 then none else some n

/-- JS `data?.usage || \x7b\x7d`. -/
def usageOrEmpty (u : Option Usage) : Usage := u.getD ⟨none, none⟩

/-- One row of the SQLite `chat_logs` table (the DB-generated
`created_at` default is not modelled; ordering uses `id`). The
`messages` column stores `JSON.stringify(finalMessages)`; it is modelled
as the message list itself, serialized on demand by `serializeMessages`. -/
structure LogEntry where
  id : Nat
  actor : String
  scope : String
  messages : List Msg
  reply : String
  tokens_prompt : Option Nat
  tokens_completion : Option Nat
deriving DecidableEq

/-- JSON string escaping for the characters realistically present in
chat text (quote, backslash, newline), as performed by `JSON.stringify`. -/
def escChar (c : Char) : List Char :=
  if c = '"' then ['\\', '"']
  else if c = '\\' then ['\\', '\\']
  else if c = '\n' then ['\\', 'n']
  else [c]

/-- Escape every character of a string for JSON embedding. -/
def jsonEscape (s : String) : String := ⟨s.data.flatMap escChar⟩

/-- `JSON.stringify` of one role/content message object. -/
def serializeMsg (m : Msg) : String :=
  "\x7b\"role\":\"" ++ jsonEscape m.role ++ "\",\"content\":\""
    ++ jsonEscape m.content ++ "\"\x7d"

/-- `JSON.stringify` of a message array. -/
def serializeMessages (ms : List Msg) : String :=
  "[" ++ String.intercalate "," (ms.map serializeMsg) ++ "]"

/-- One element of the in-memory variant's `logs` array (`created_at`
from `nowISO()` is passed in by the handler; `unshift` keeps newest
first). As above, the stringified `messages` field is modelled as the
list itself. -/
structure MemLogEntry where
  created_at : String
  scope : String
  actor : String
  messages : List Msg
  reply : String
deriving DecidableEq

/-! ### Chat handlers -/

/-- What a chat route sends back: the upstream failure body forwarded
with its status, or a success JSON with the reply text and usage
(`created_at`, a wall-clock string, is not modelled). -/
inductive ChatResult where
  | forwarded (status : Nat) (body : UpstreamBody) : ChatResult
  | success (reply : String) (usage : Usage) : ChatResult
deriving DecidableEq

/-- The SQLite `POST /api/super/chat` handler. `envModel` is the
`CHAT_MODEL` environment default; `upstream` is the chat-completions
fetch, applied to the model name and the assembled message list. On a
non-ok response the status and parsed body are forwarded and nothing is
logged; on success the reply is extracted, one row is inserted with
scope `super`, and the reply and usage are returned. -/
def superChat (settings : Settings) (envModel : String) (admin_user : String)
    (messages : List Msg) (upstream : String → List Msg → UpstreamResp)
    (logs : List LogEntry) : ChatResult × List LogEntry :=
  let finalMessages := buildMessages settings.system_prompt messages
  let r := upstream (orElseStr (some settings.model) envModel) finalMessages
  if r.ok = false then (.forwarded r.status r.body, logs)
  else
    let reply := firstChoiceContent r.body
    let usage := usageOrEmpty r.body.usage
    let entry : LogEntry :=
      { id := logs.length + 1, actor := admin_user, scope := "super",
        messages := finalMessages, reply := reply,
        tokens_prompt := orNullNat usage.prompt_tokens,
        tokens_completion := orNullNat usage.completion_tokens }
    (.success reply usage, logs ++ [entry])

/-- The SQLite `POST /api/chat/user/send` handler; identical pipeline
with scope `user` and actor `user:{user_id}` when `user_id` is truthy,
else `ip:{ip}`. -/
def userChatSend (settings : Settings) (envModel : String)
    (user_id : Option String) (ip : String) (messages : List Msg)
    (upstream : String → List Msg → UpstreamResp)
    (logs : List LogEntry) : ChatResult × List LogEntry :=
  let actor := if truthy user_id then "user:" ++ user_id.getD "" else "ip:" ++ ip
  let finalMessages := buildMessages settings.system_prompt messages
  let r := upstream (orElseStr (some settings.model) envModel) finalMessages
  if r.ok = false then (.forwarded r.status r.body, logs)
  else
    let reply := firstChoiceContent r.body
    let usage := usageOrEmpty r.body.usage
    let entry : LogEntry :=
      { id := logs.length + 1, actor := actor, scope := "user",
        messages := finalMessages, reply := reply,
        tokens_prompt := orNullNat usage.prompt_tokens,
        tokens_completion := orNullNat usage.completion_tokens }
    (.success reply usage, logs ++ [entry])

/-- The in-memory variant's `callChat`: the SDK call either throws
(`Except.error`, its message) or yields a parsed body; the reply is
`resp.choices?.[0]?.message?.content || ''`. -/
def callChat (settings : SettingsMem)
    (upstream : String → List Msg → Except String UpstreamBody)
    (messages : List Msg) : Except String String :=
  match upstream (orElseStr (some settings.model) "gpt-4o-mini") messages with
  | .error e => .error e
  | .ok body => .ok (orElseStr (some (firstChoiceContent body)) "")

/-- Response of an in-memory chat route: success JSON with the reply, or
the catch-all 500 with error code `chat_failed` and the thrown detail. -/
inductive MemChatResult where
  | success (reply : String) : MemChatResult
  | failure (status : Nat) (error : String) (detail : String) : MemChatResult
deriving DecidableEq

/-- The in-memory `POST /api/super/chat` handler: call `callChat` on the
request messages, `unshift` one log record with scope `super`, return
the reply; a thrown upstream error becomes a 500 `chat_failed`. -/
def superChatMem (settings : SettingsMem) (nowStr : String)
    (admin_user : String) (messages : List Msg)
    (upstream : String → List Msg → Except String UpstreamBody)
    (logs : List MemLogEntry) : MemChatResult × List MemLogEntry :=
  match callChat settings upstream messages with
  | .error e => (.failure 500 "chat_failed" e, logs)
  | .ok reply =>
    let entry : MemLogEntry :=
      { created_at := nowStr, scope := "super", actor := admin_user,
        messages := messages, reply := reply }
    (.success reply, entry :: logs)

/-- The in-memory `POST /api/chat/user/send` handler: like the super
route but with scope `user` and fixed actor `user`. -/
def userChatMem (settings : SettingsMem) (nowStr : String) (messages : List Msg)
    (upstream : String → List Msg → Except String UpstreamBody)
    (logs : List MemLogEntry) : MemChatResult × List MemLogEntry :=
  match callChat settings upstream messages with
  | .error e => (.failure 500 "chat_failed" e, logs)
  | .ok reply =>
    let entry : MemLogEntry :=
      { created_at := nowStr, scope := "user", actor := "user",
        messages := messages, reply := reply }
    (.success reply, entry :: logs)

/-! ### TTS routes -/

/-- Outcome of a TTS route, up to the point where the upstream
speech-synthesis client would be invoked: `configError` is the early
rejection (no upstream call); `audio` records that the upstream client
is invoked with the given voice and input text. -/
inductive TtsResult where
  | configError (status : Nat) (error : String) : TtsResult
  | audio (voice : String) (input : String) : TtsResult
deriving DecidableEq

/-- True exactly on the early-rejection outcome. -/
def TtsResult.isConfigError : TtsResult → Bool
  | .configError _ _ => true
  | .audio _ _ => false

/-- The TTS route of the SQLite variant — `GET /api/super/tts` and
`GET /api/tts` share this body verbatim. The engine is the stored
`tts_engine` (environment `TTS_ENGINE` when empty), lowercased; when it
is `browser` the route answers 400 `browser_tts_enabled` and the
upstream client is never invoked; otherwise the speech call is made with
the query voice, falling back to the stored voice then `TTS_VOICE`. -/
def ttsRoute (settings : Settings) (envEngine envVoice : String)
    (text : Option String) (voice : Option String) : TtsResult :=
  let engine := lowerStr (orElseStr (some settings.tts_engine) envEngine)
  if engine = "browser" then .configError 400 "browser_tts_enabled"
  else .audio (orElseStr voice (orElseStr (some settings.tts_voice) envVoice))
    (text.getD "")

/-- The in-memory variant's `ttsBuffer(text, voice)`: always calls the
upstream speech endpoint, voice falling back to the stored voice then
`alloy`. No engine check exists anywhere on this path. -/
def ttsBuffer (settings : SettingsMem) (text : String) (voice : Option String) :
    TtsResult :=
  .audio (orElseStr voice (orElseStr (some settings.tts_voice) "alloy")) text

/-- The in-memory `GET /api/super/tts` handler (and the public
`GET /api/tts`, identical): pass the query text and voice straight to
`ttsBuffer`. -/
def superTtsMem (settings : SettingsMem) (text : Option String)
    (voice : Option String) : TtsResult :=
  ttsBuffer settings (orElseStr (some (text.getD "")) "") voice

/-! ### Log queries -/

/-- SQL `LIKE` pattern matching as SQLite evaluates it here: `%`
matches any sequence of characters (including the empty one), `_`
matches exactly one character, any other pattern character compares
case-insensitively in the ASCII range, and the queries carry no ESCAPE
clause. Structural recursion on the pattern: the `%` arm tries every
suffix of the text. -/
def likeMatch : List Char → List Char → Bool
  | [], s => s.isEmpty
  | '%' :: p2, s => s.tails.any (fun t => likeMatch p2 t)
  | '_' :: p2, s =>
    match s with
    | [] => false
    | _ :: t => likeMatch p2 t
  | c :: p2, s =>
    match s with
    | [] => false
    | d :: t => (lowerChar c == lowerChar d) && likeMatch p2 t

/-- SQLite `column like ?` bound to the pattern `'%' + q + '%'`: the
user-supplied `q` is interpolated into the pattern unescaped, so `%`
and `_` inside it act as wildcards, not literal characters. -/
def likeContains (s pat : String) : Bool :=
  likeMatch ('%' :: (pat.data ++ ['%'])) s.data

/-- The SQLite `GET /api/super/logs` handler. Defaults: `q` empty,
`limit` 50. With a truthy `q`, rows whose `reply` or stored `messages`
text matches the pattern `like '%q%'` are kept; rows come back ordered
by `id` descending, capped at `limit`. The table `logs` is held in
insertion (ascending-id) order. -/
def superLogs (q : Option String) (reqLimit : Option Nat)
    (logs : List LogEntry) : List LogEntry :=
  let qv := q.getD ""
  let lim := reqLimit.getD 50
  if qv ≠ "" then
    ((logs.filter (fun e =>
      likeContains e.reply qv || likeContains (serializeMessages e.messages) qv)).reverse).take lim
  else logs.reverse.take lim

/-- The in-memory `GET /api/super/logs` handler: it reads only
`req.query.q` (lowercased); any `limit` query parameter is never
consulted. Matching rows (the `logs` array is kept newest-first by
`unshift`) are returned, capped by `slice(0, 200)`. -/
def superLogsMem (q : Option String) (reqLimit : Option Nat)
    (logs : List MemLogEntry) : List MemLogEntry :=
  let ql := lowerStr (orElseStr q "")
  let filtered :=
    if ql ≠ "" then
      logs.filter (fun r =>
        containsStr (lowerStr r.reply) ql
          || containsStr (lowerStr (serializeMessages r.messages)) ql)
    else logs
  filtered.take 200

/-- The upstream response a chat handler of the SQLite variant receives:
the fetch applied to the effective model and the assembled messages.
Definitionally equal to the `r` inside `superChat` and `userChatSend`. -/
def chatUpstreamResp (s : Settings) (envModel : String) (messages : List Msg)
    (upstream : String → List Msg → UpstreamResp) : UpstreamResp :=
  upstream (orElseStr (some s.model) envModel) (buildMessages s.system_prompt messages)

/-! ### Concrete fixtures used by witnesses and counterexamples -/

/-- Settings fixture with an empty system prompt. -/
def settings0 : Settings := ⟨"gpt-4o-mini", "openai", "alloy", ""⟩

/-- Settings fixture for the in-memory variant. -/
def settingsMem0 : SettingsMem := ⟨"gpt-4o-mini", "openai", "alloy"⟩

/-- Upstream stub returning a 418 failure. -/
def upstreamFail : String → List Msg → UpstreamResp :=
  fun _ _ => ⟨false, 418, ⟨[], none⟩⟩

/-- Upstream stub returning a successful completion `hello` with usage. -/
def upstreamOk : String → List Msg → UpstreamResp :=
  fun _ _ => ⟨true, 200, ⟨[some "hello"], some ⟨some 3, some 1⟩⟩⟩

/-- Upstream stub returning success with no choices at all. -/
def upstreamNoChoice : String → List Msg → UpstreamResp :=
  fun _ _ => ⟨true, 200, ⟨[], none⟩⟩

/-- In-memory upstream stub returning a successful completion. -/
def upstreamMemOk : String → List Msg → Except String UpstreamBody :=
  fun _ _ => .ok ⟨[some "hello"], none⟩

/-- In-memory upstream stub returning success with no choices. -/
def upstreamMemNoChoice : String → List Msg → Except String UpstreamBody :=
  fun _ _ => .ok ⟨[], none⟩

/-- A sample log row with the given id. -/
def logEntryAt (i : Nat) : LogEntry :=
  ⟨i, "superadmin", "super", [⟨"user", "hi"⟩], "reply", none, none⟩

/-- Five sample rows in insertion order, ids 1 to 5. -/
def logsSample : List LogEntry :=
  [logEntryAt 1, logEntryAt 2, logEntryAt 3, logEntryAt 4, logEntryAt 5]

/-- Five sample in-memory log records (newest first in the array). -/
def memLogsSample : List MemLogEntry :=
  List.replicate 5 ⟨"t", "super", "superadmin", [], "reply"⟩

/-! ## Helper lemmas -/

/-- Stepping `allow` on an existing bucket within its window increments
the count and keeps the reset time. -/
theorem allow_le (b : RateBucket) (t limit windowMs : Nat) (h : t ≤ b.reset) :
    allow (some b) t limit windowMs =
      (decide (b.count + 1 ≤ limit), ⟨b.count + 1, b.reset⟩) := by
  simp [allow, Nat.not_lt.mpr h]

/-- Stepping `allow` strictly past the bucket's reset time starts a
fresh window: count becomes 1 and the reset moves to `t + windowMs`. -/
theorem allow_gt (b : RateBucket) (t limit windowMs : Nat) (h : b.reset < t) :
    allow (some b) t limit windowMs =
      (decide (1 ≤ limit), ⟨1, t + windowMs⟩) := by
  simp [allow, h]

/-- Stepping `allow` on a key with no bucket creates a fresh window. -/
theorem allow_none (t limit windowMs : Nat) :
    allow none t limit windowMs = (decide (1 ≤ limit), ⟨1, t + windowMs⟩) := by
  simp [allow, Nat.not_lt.mpr (Nat.le_add_right t windowMs)]

/-- Running a whole call sequence that stays within the bucket's window
just counts up: the i-th decision is `count + i + 1 ≤ limit` and the
reset time never moves. -/
theorem allowList_stay (limit windowMs : Nat) (ts : List Nat) (b : RateBucket)
    (h : ∀ t ∈ ts, t ≤ b.reset) :
    allowList (some b) ts limit windowMs =
      ((List.range ts.length).map (fun i => decide (b.count + i + 1 ≤ limit)),
       some ⟨b.count + ts.length, b.reset⟩) := by
  induction ts generalizing b with
  | nil => simp [allowList]
  | cons t rest ih =>
    have ht : t ≤ b.reset := h t (List.mem_cons_self t rest)
    have hrest : ∀ u ∈ rest, u ≤ b.reset := fun u hu => h u (List.mem_cons_of_mem _ hu)
    have ih2 := ih ⟨b.count + 1, b.reset⟩ hrest
    simp only [allowList, allow_le b t limit windowMs ht, ih2,
      List.range_succ_eq_map, List.map_cons, List.map_map, List.length_cons]
    have hc : b.count + 1 + rest.length = b.count + (rest.length + 1) := by omega
    rw [hc]
    congr 1
    congr 1
    apply List.map_congr_left
    intro i _
    simp only [Function.comp_apply, decide_eq_decide]
    omega

/-- The decisions `i + 1 ≤ n` over `range k` are `min k n` successes
followed by `k - n` failures. -/
theorem range_map_decide_le (k n : Nat) :
    (List.range k).map (fun i => decide (i + 1 ≤ n)) =
      List.replicate (min k n) true ++ List.replicate (k - n) false := by
  induction k with
  | zero => simp
  | succ m ih =>
    rw [List.range_succ, List.map_append, ih]
    by_cases hc : m < n
    · have h1 : min (m + 1) n = m + 1 := by omega
      have h2 : min m n = m := by omega
      have h3 : m - n = 0 := by omega
      have h4 : m + 1 - n = 0 := by omega
      have h5 : decide (m + 1 ≤ n) = true := by simp; omega
      simp [h1, h2, h3, h4, h5, List.replicate_succ']
    · have h1 : min (m + 1) n = n := by omega
      have h2 : min m n = n := by omega
      have h3 : m + 1 - n = (m - n) + 1 := by omega
      have h5 : decide (m + 1 ≤ n) = false := by simp; omega
      simp [h1, h2, h3, h5, List.replicate_succ']

/-! ## Claim theorems -/

/-- C1: starting from no bucket, a sequence of `limit + 1` calls whose
times all lie within `windowMs` of the first call yields exactly `limit`
allowed calls with the final call failing, and once the window has
elapsed (the current time is strictly past the stored reset) a further
call is allowed again. -/
theorem rateLimiter_fixed_window (limit windowMs t0 : Nat) (ts : List Nat)
    (hlen : ts.length = limit) (hin : ∀ t ∈ ts, t ≤ t0 + windowMs) :
    (allowList none (t0 :: ts) limit windowMs).1.count true = limit ∧
    (allowList none (t0 :: ts) limit windowMs).1.getLast? = some false ∧
    (∀ tnext, 1 ≤ limit → t0 + windowMs < tnext →
      (allow (allowList none (t0 :: ts) limit windowMs).2 tnext limit windowMs).1 = true) := by
  have hfull : allowList none (t0 :: ts) limit windowMs =
      (decide (1 ≤ limit) ::
        (List.range ts.length).map (fun i => decide (1 + i + 1 ≤ limit)),
       some ⟨1 + ts.length, t0 + windowMs⟩) := by
    simp only [allowList, allow_none, allowList_stay limit windowMs ts ⟨1, t0 + windowMs⟩ hin]
  have hshape : (allowList none (t0 :: ts) limit windowMs).1 =
      List.replicate limit true ++ [false] := by
    rw [hfull, hlen]
    show decide (1 ≤ limit) :: (List.range limit).map (fun i => decide (1 + i + 1 ≤ limit))
        = List.replicate limit true ++ [false]
    have hoff : (List.range limit).map (fun i => decide (1 + i + 1 ≤ limit)) =
        (List.range limit).map (fun i => decide (i + 1 ≤ limit - 1)) := by
      apply List.map_congr_left
      intro i _
      simp only [decide_eq_decide]
      omega
    rw [hoff, range_map_decide_le limit (limit - 1)]
    cases limit with
    | zero => simp
    | succ m =>
      have h1 : min (m + 1) (m + 1 - 1) = m := by omega
      have h2 : (m + 1) - (m + 1 - 1) = 1 := by omega
      have h3 : decide (1 ≤ m + 1) = true := by simp
      rw [h1, h2, h3]
      simp [List.replicate_succ]
  refine ⟨?_, ?_, ?_⟩
  · rw [hshape]
    simp [List.count_append, List.count_replicate, List.count_cons]
  · rw [hshape]
    exact List.getLast?_concat _
  · intro tnext hlim hgt
    rw [hfull]
    rw [allow_gt ⟨1 + ts.length, t0 + windowMs⟩ tnext limit windowMs hgt]
    simpa using hlim

/-- C1 witness: limit 2, window 10 ms, calls at 0, 1, 2 give two allowed
calls and a failing third, and a call at time 11 is allowed again. -/
theorem rateLimiter_fixed_window_witness :
    (allowList none (0 :: [1, 2]) 2 10).1.count true = 2 ∧
    (allowList none (0 :: [1, 2]) 2 10).1.getLast? = some false ∧
    (allow (allowList none (0 :: [1, 2]) 2 10).2 11 2 10).1 = true := by
  obtain ⟨h1, h2, h3⟩ := rateLimiter_fixed_window 2 10 0 [1, 2] (by decide) (by decide)
  exact ⟨h1, h2, h3 11 (by decide) (by decide)⟩

/-- C9: one `allow` step on a stored bucket either increments the count
by exactly one leaving the reset time unchanged (when the call is at or
before the window end: counts are monotonically non-decreasing within a
window, with no partial decay), or — strictly past the window end —
resets the whole bucket at once to count 1 with a new window. -/
theorem rateBucket_step (b : RateBucket) (now limit windowMs : Nat) :
    (now ≤ b.reset →
      (allow (some b) now limit windowMs).2 = ⟨b.count + 1, b.reset⟩) ∧
    (b.reset < now →
      (allow (some b) now limit windowMs).2 = ⟨1, now + windowMs⟩) :=
  ⟨fun h => by rw [allow_le b now limit windowMs h],
   fun h => by rw [allow_gt b now limit windowMs h]⟩

/-- C9 witness: a call at time 50 on a bucket with count 3 and reset 100
stores count 4 and keeps reset 100. -/
theorem rateBucket_step_witness :
    (allow (some ⟨3, 100⟩) 50 10 60).2 = (⟨4, 100⟩ : RateBucket) :=
  (rateBucket_step ⟨3, 100⟩ 50 10 60).1 (by decide)

/-- C2 (amended): in the SQLite variant a settings update succeeds only
when every one of the four body fields is bound — a request omitting
any field throws at bind time (better-sqlite3 refuses `undefined`),
answers 500, and changes nothing; when all fields are present, a string
value — including the empty string — replaces the stored column and an
explicit JSON null leaves it unchanged, so a voice-with-nulls update
keeps model and system prompt. In the in-memory variant a field is
replaced exactly when present and non-empty, and an update supplying
only a voice value leaves every other field equal to its prior value. -/
theorem settings_update_coalesce (s : Settings) (u : SettingsUpdate)
    (sm : SettingsMem) (um : SettingsUpdateMem) :
    ((u.model = none ∨ u.tts_engine = none ∨ u.tts_voice = none ∨
        u.system_prompt = none) →
      putSettings s u = (.bindError 500, s)) ∧
    (∀ m e v p, u = ⟨some m, some e, some v, some p⟩ →
      putSettings s u =
        (.ok ⟨m.getD s.model, e.getD s.tts_engine, v.getD s.tts_voice,
              p.getD s.system_prompt⟩,
         ⟨m.getD s.model, e.getD s.tts_engine, v.getD s.tts_voice,
          p.getD s.system_prompt⟩)) ∧
    (∀ v, putSettings s ⟨some none, some none, some (some v), some none⟩ =
      (.ok { s with tts_voice := v }, { s with tts_voice := v })) ∧
    (∀ v, putSettings s ⟨none, none, some (some v), none⟩ = (.bindError 500, s)) ∧
    ((um.model = none ∨ um.model = some "") →
      (putSettingsMem sm um).model = sm.model) ∧
    (∀ v, um.model = some v → v ≠ "" → (putSettingsMem sm um).model = v) ∧
    ((um.tts_engine = none ∨ um.tts_engine = some "") →
      (putSettingsMem sm um).tts_engine = sm.tts_engine) ∧
    (∀ v, um.tts_engine = some v → v ≠ "" → (putSettingsMem sm um).tts_engine = v) ∧
    ((um.tts_voice = none ∨ um.tts_voice = some "") →
      (putSettingsMem sm um).tts_voice = sm.tts_voice) ∧
    (∀ v, um.tts_voice = some v → v ≠ "" → (putSettingsMem sm um).tts_voice = v) ∧
    (∀ v, v ≠ "" → putSettingsMem sm ⟨none, none, some v⟩ = { sm with tts_voice := v }) := by
  refine ⟨fun h => ?_, fun m e v p h => ?_, fun v => ?_, fun v => ?_,
    fun h => ?_, fun v h hv => ?_, fun h => ?_, fun v h hv => ?_,
    fun h => ?_, fun v h hv => ?_, fun v hv => ?_⟩
  · rcases u with ⟨um4, ue4, uv4, up4⟩
    cases um4 <;> cases ue4 <;> cases uv4 <;> cases up4 <;>
      simp_all [putSettings]
  · subst h
    rfl
  · rfl
  · rfl
  · rcases h with h | h <;> simp [putSettingsMem, orElseStr, h]
  · simp [putSettingsMem, orElseStr, h, hv]
  · rcases h with h | h <;> simp [putSettingsMem, orElseStr, h]
  · simp [putSettingsMem, orElseStr, h, hv]
  · rcases h with h | h <;> simp [putSettingsMem, orElseStr, h]
  · simp [putSettingsMem, orElseStr, h, hv]
  · simp [putSettingsMem, orElseStr, hv]

/-- C2 witness: a body binding only explicit nulls for the last three
fields but omitting `model` fails with 500 and leaves the row as it
was. -/
theorem settings_update_coalesce_witness :
    putSettings settings0 ⟨none, some none, some none, some none⟩ =
      (.bindError 500, settings0) :=
  (settings_update_coalesce settings0 ⟨none, some none, some none, some none⟩
    settingsMem0 ⟨none, none, none⟩).1 (Or.inl rfl)

/-- C2 counterexample: in the SQLite variant, a request supplying only a
non-empty voice value does not replace the voice — the three absent
fields make the bind throw, the route answers 500, and the row keeps its
prior voice; and an update presenting the empty string for `model`
(other fields explicit null) does not leave the stored model unchanged —
`coalesce` only skips NULL, so the stored model becomes empty. -/
theorem settings_update_counterexample :
    putSettings settings0 ⟨none, none, some (some "x"), none⟩ =
      (.bindError 500, settings0) ∧
    (putSettings settings0 ⟨none, none, some (some "x"), none⟩).2.tts_voice ≠ "x" ∧
    (putSettings settings0 ⟨some (some ""), some none, some none, some none⟩).2.model = "" ∧
    ("" : String) ≠ "gpt-4o-mini" := by
  decide

/-- C3 (amended): in the SQLite variant both TTS routes answer 400
`browser_tts_enabled` — and never invoke the upstream speech client —
exactly when the effective engine lowercases to `browser`; the
in-memory variant performs no engine check and always invokes the
upstream synthesizer. -/
theorem tts_browser_engine (s : Settings) (envEngine envVoice : String)
    (text voice : Option String) (sm : SettingsMem) (tm vm : Option String) :
    (lowerStr (orElseStr (some s.tts_engine) envEngine) = "browser" →
      ttsRoute s envEngine envVoice text voice = .configError 400 "browser_tts_enabled") ∧
    ((ttsRoute s envEngine envVoice text voice).isConfigError = true →
      lowerStr (orElseStr (some s.tts_engine) envEngine) = "browser") ∧
    (superTtsMem sm tm vm).isConfigError = false := by
  refine ⟨fun h => ?_, fun h => ?_, ?_⟩
  · simp [ttsRoute, h]
  · by_cases hb : lowerStr (orElseStr (some s.tts_engine) envEngine) = "browser"
    · exact hb
    · simp [ttsRoute, hb, TtsResult.isConfigError] at h
  · simp [superTtsMem, ttsBuffer, TtsResult.isConfigError]

/-- C3 witness: with stored engine `browser` the SQLite TTS route is
rejected with 400 before any upstream call. -/
theorem tts_browser_engine_witness :
    ttsRoute ⟨"gpt-4o-mini", "browser", "alloy", ""⟩ "openai" "alloy" (some "hi") none
      = .configError 400 "browser_tts_enabled" :=
  (tts_browser_engine ⟨"gpt-4o-mini", "browser", "alloy", ""⟩ "openai" "alloy"
    (some "hi") none ⟨"gpt-4o-mini", "openai", "alloy"⟩ none none).1 (by decide)

/-- C3 counterexample: the in-memory superadmin TTS route invokes the
upstream speech client even while the configured engine is `browser`,
instead of returning the claimed 400 configuration error. -/
theorem tts_mem_no_browser_check :
    superTtsMem ⟨"gpt-4o-mini", "browser", "alloy"⟩ (some "hi") none
      = .audio "alloy" "hi" ∧
    superTtsMem ⟨"gpt-4o-mini", "browser", "alloy"⟩ (some "hi") none
      ≠ .configError 400 "browser_tts_enabled" := by
  decide

/-- C6 (amended): when the configured system prompt has non-whitespace
content (its trim is non-empty) the upstream message sequence is a
system message carrying the untrimmed prompt followed by the request's
messages in order; when the prompt is empty or whitespace-only, no
system message is included and the sequence equals the request's
messages. -/
theorem system_prompt_placement (sp : String) (messages : List Msg) :
    (trimStr sp ≠ "" → buildMessages sp messages = ⟨"system", sp⟩ :: messages) ∧
    (trimStr sp = "" → buildMessages sp messages = messages) := by
  constructor <;> intro h <;> simp [buildMessages, h]

/-- C6 witness: a non-blank prompt is prepended as the first, system
message. -/
theorem system_prompt_placement_witness :
    buildMessages "be nice" [⟨"user", "hi"⟩]
      = ⟨"system", "be nice"⟩ :: [⟨"user", "hi"⟩] :=
  (system_prompt_placement "be nice" [⟨"user", "hi"⟩]).1 (by decide)

/-- C6 counterexample: the prompt consisting of one space is non-empty,
yet the handlers send the request messages unchanged — no system
message is prepended, because the code tests the trimmed prompt. -/
theorem system_prompt_whitespace_dropped :
    (" " : String) ≠ "" ∧
    buildMessages " " [⟨"user", "hi"⟩] = [⟨"user", "hi"⟩] ∧
    buildMessages " " [⟨"user", "hi"⟩] ≠ ⟨"system", " "⟩ :: [⟨"user", "hi"⟩] := by
  decide

/-- C7: the SQLite guard passes exactly when the resolved role is
`superadmin` or a non-empty configured bypass token is matched exactly
by the `x-admin` header, and otherwise rejects with 401 and the reason
string `Superadmin required` (so the handler is never reached); the
in-memory guard — which resolves no role — passes exactly on the same
token match and otherwise rejects with 401 and a structured reason. -/
theorem superadmin_guard (role adminTok header : Option String) :
    (requireSuperadmin role adminTok header = .pass ↔
      role = some "superadmin" ∨ ∃ t, adminTok = some t ∧ t ≠ "" ∧ header = some t) ∧
    (requireSuperadmin role adminTok header ≠ .pass →
      requireSuperadmin role adminTok header = .reject 401 "Superadmin required") ∧
    (requireAdmin adminTok header = .pass ↔
      ∃ t, adminTok = some t ∧ t ≠ "" ∧ header = some t) ∧
    (requireAdmin adminTok header ≠ .pass →
      requireAdmin adminTok header = .reject 401 "admin_token_missing" ∨
      requireAdmin adminTok header = .reject 401 "unauthorized") := by
  have htok : (truthy adminTok = true ∧ header = adminTok) ↔
      (∃ t, adminTok = some t ∧ t ≠ "" ∧ header = some t) := by
    cases adminTok with
    | none => simp [truthy]
    | some t =>
      constructor
      · rintro ⟨h1, h2⟩
        exact ⟨t, rfl, by simpa [truthy] using h1, h2⟩
      · rintro ⟨t2, ht2, hne, hh⟩
        cases ht2
        exact ⟨by simpa [truthy] using hne, hh⟩
  refine ⟨?_, ?_, ?_, ?_⟩
  · unfold requireSuperadmin
    split_ifs with h1 h2
    · simp [h1]
    · simp [htok.mp h2]
    · constructor
      · intro h
        exact absurd h (by simp)
      · rintro (h | h)
        · exact absurd h h1
        · exact absurd (htok.mpr h) h2
  · intro h
    unfold requireSuperadmin at *
    split_ifs at * with h1 h2
    · exact absurd rfl h
    · exact absurd rfl h
    · rfl
  · unfold requireAdmin
    split_ifs with h1 h2
    · constructor
      · intro hp
        exact absurd hp (by simp)
      · intro hex
        have hco := (htok.mpr hex).1
        rw [h1] at hco
        exact absurd hco (by simp)
    · constructor
      · intro hp
        exact absurd hp (by simp)
      · intro hex
        exact absurd (htok.mpr hex).2 h2
    · rw [← htok]
      push_neg at h2
      simp only [Bool.not_eq_false] at h1
      simp [h1, h2]
  · intro h
    unfold requireAdmin at *
    split_ifs at * with h1 h2
    · exact Or.inl rfl
    · exact Or.inr rfl
    · exact absurd rfl h

/-- C7 witness: a request whose cookie resolves to role `superadmin`
passes the guard. -/
theorem superadmin_guard_witness :
    requireSuperadmin (some "superadmin") none none = .pass :=
  (superadmin_guard (some "superadmin") none none).1.mpr (Or.inl rfl)

/-- C4: when the upstream chat call of the SQLite variant returns a
non-ok response, both chat handlers forward that same status code and
parsed body to the caller and append no log entry — the log store is
returned unchanged. -/
theorem chat_upstream_failure_forwarded (s : Settings) (envModel admin_user : String)
    (user_id : Option String) (ip : String) (messages : List Msg)
    (upstream : String → List Msg → UpstreamResp) (logs : List LogEntry)
    (hfail : (chatUpstreamResp s envModel messages upstream).ok = false) :
    superChat s envModel admin_user messages upstream logs =
      (.forwarded (chatUpstreamResp s envModel messages upstream).status
        (chatUpstreamResp s envModel messages upstream).body, logs) ∧
    userChatSend s envModel user_id ip messages upstream logs =
      (.forwarded (chatUpstreamResp s envModel messages upstream).status
        (chatUpstreamResp s envModel messages upstream).body, logs) := by
  unfold chatUpstreamResp at hfail ⊢
  constructor
  · simp [superChat, hfail]
  · simp [userChatSend, hfail]

/-- C4 witness: a stubbed 418 upstream failure is forwarded by both
handlers with an untouched (empty) log store. -/
theorem chat_upstream_failure_forwarded_witness :
    superChat settings0 "m" "superadmin" [⟨"user", "hi"⟩] upstreamFail [] =
      (.forwarded (chatUpstreamResp settings0 "m" [⟨"user", "hi"⟩] upstreamFail).status
        (chatUpstreamResp settings0 "m" [⟨"user", "hi"⟩] upstreamFail).body, []) ∧
    userChatSend settings0 "m" none "1.2.3.4" [⟨"user", "hi"⟩] upstreamFail [] =
      (.forwarded (chatUpstreamResp settings0 "m" [⟨"user", "hi"⟩] upstreamFail).status
        (chatUpstreamResp settings0 "m" [⟨"user", "hi"⟩] upstreamFail).body, []) :=
  chat_upstream_failure_forwarded settings0 "m" "superadmin" none "1.2.3.4"
    [⟨"user", "hi"⟩] upstreamFail [] (by decide)

/-- C5: on a successful upstream call each chat handler appends exactly
one log entry whose scope is the route's tier (`super` for the
superadmin route, `user` for the user route), whose reply equals the
text returned to the caller, and whose messages equal the exact
sequence sent upstream — in both server variants. -/
theorem chat_success_one_log (s : Settings) (envModel admin_user : String)
    (user_id : Option String) (ip : String) (messages : List Msg)
    (upstream : String → List Msg → UpstreamResp) (logs : List LogEntry)
    (sm : SettingsMem) (nowStr admin_userM : String) (messagesM : List Msg)
    (upstreamM : String → List Msg → Except String UpstreamBody)
    (logsM : List MemLogEntry)
    (hok : (chatUpstreamResp s envModel messages upstream).ok = true) :
    (∃ e : LogEntry,
      superChat s envModel admin_user messages upstream logs =
        (.success e.reply
          (usageOrEmpty (chatUpstreamResp s envModel messages upstream).body.usage),
         logs ++ [e]) ∧
      e.scope = "super" ∧
      e.messages = buildMessages s.system_prompt messages ∧
      e.reply = firstChoiceContent (chatUpstreamResp s envModel messages upstream).body) ∧
    (∃ e : LogEntry,
      userChatSend s envModel user_id ip messages upstream logs =
        (.success e.reply
          (usageOrEmpty (chatUpstreamResp s envModel messages upstream).body.usage),
         logs ++ [e]) ∧
      e.scope = "user" ∧
      e.messages = buildMessages s.system_prompt messages ∧
      e.reply = firstChoiceContent (chatUpstreamResp s envModel messages upstream).body) ∧
    (∀ body, upstreamM (orElseStr (some sm.model) "gpt-4o-mini") messagesM = .ok body →
      (∃ e : MemLogEntry,
        superChatMem sm nowStr admin_userM messagesM upstreamM logsM =
          (.success e.reply, e :: logsM) ∧
        e.scope = "super" ∧ e.messages = messagesM) ∧
      (∃ e : MemLogEntry,
        userChatMem sm nowStr messagesM upstreamM logsM =
          (.success e.reply, e :: logsM) ∧
        e.scope = "user" ∧ e.messages = messagesM)) := by
  unfold chatUpstreamResp at hok ⊢
  refine ⟨?_, ?_, fun body hbody => ⟨?_, ?_⟩⟩
  · refine ⟨⟨logs.length + 1, admin_user, "super",
      buildMessages s.system_prompt messages,
      firstChoiceContent (upstream (orElseStr (some s.model) envModel)
        (buildMessages s.system_prompt messages)).body,
      orNullNat (usageOrEmpty (upstream (orElseStr (some s.model) envModel)
        (buildMessages s.system_prompt messages)).body.usage).prompt_tokens,
      orNullNat (usageOrEmpty (upstream (orElseStr (some s.model) envModel)
        (buildMessages s.system_prompt messages)).body.usage).completion_tokens⟩,
      ?_, rfl, rfl, rfl⟩
    simp [superChat, hok]
  · refine ⟨⟨logs.length + 1,
      if truthy user_id then "user:" ++ user_id.getD "" else "ip:" ++ ip, "user",
      buildMessages s.system_prompt messages,
      firstChoiceContent (upstream (orElseStr (some s.model) envModel)
        (buildMessages s.system_prompt messages)).body,
      orNullNat (usageOrEmpty (upstream (orElseStr (some s.model) envModel)
        (buildMessages s.system_prompt messages)).body.usage).prompt_tokens,
      orNullNat (usageOrEmpty (upstream (orElseStr (some s.model) envModel)
        (buildMessages s.system_prompt messages)).body.usage).completion_tokens⟩,
      ?_, rfl, rfl, rfl⟩
    simp [userChatSend, hok]
  · refine ⟨⟨nowStr, "super", admin_userM, messagesM,
      orElseStr (some (firstChoiceContent body)) ""⟩, ?_, rfl, rfl⟩
    simp [superChatMem, callChat, hbody]
  · refine ⟨⟨nowStr, "user", "user", messagesM,
      orElseStr (some (firstChoiceContent body)) ""⟩, ?_, rfl, rfl⟩
    simp [userChatMem, callChat, hbody]

/-- C5 witness: the superadmin chat route with a stubbed successful
upstream appends one entry with scope `super`, the upstream message
sequence, and the returned reply. -/
theorem chat_success_one_log_witness :
    ∃ e : LogEntry,
      superChat settings0 "m" "superadmin" [⟨"user", "hi"⟩] upstreamOk [] =
        (.success e.reply
          (usageOrEmpty (chatUpstreamResp settings0 "m" [⟨"user", "hi"⟩] upstreamOk).body.usage),
         [] ++ [e]) ∧
      e.scope = "super" ∧
      e.messages = buildMessages settings0.system_prompt [⟨"user", "hi"⟩] ∧
      e.reply = firstChoiceContent (chatUpstreamResp settings0 "m" [⟨"user", "hi"⟩] upstreamOk).body :=
  (chat_success_one_log settings0 "m" "superadmin" none "1.2.3.4" [⟨"user", "hi"⟩]
    upstreamOk [] settingsMem0 "now" "superadmin" [⟨"user", "hi"⟩] upstreamMemOk []
    (by decide)).1

/-- C10: when the upstream call succeeds but the body has no first
choice with message content, the handlers still answer success with the
empty-string reply and still append a log entry carrying that empty
reply — no error is signalled. Holds for the SQLite superadmin handler
and for the in-memory `callChat`/handler pipeline. -/
theorem chat_missing_content_empty_reply (s : Settings) (envModel admin_user : String)
    (messages : List Msg) (upstream : String → List Msg → UpstreamResp)
    (logs : List LogEntry)
    (sm : SettingsMem) (nowStr admin_userM : String) (messagesM : List Msg)
    (upstreamM : String → List Msg → Except String UpstreamBody)
    (logsM : List MemLogEntry)
    (hok : (chatUpstreamResp s envModel messages upstream).ok = true)
    (hnone : (chatUpstreamResp s envModel messages upstream).body.choices = [] ∨
      ∃ rest, (chatUpstreamResp s envModel messages upstream).body.choices = none :: rest) :
    (∃ e : LogEntry,
      superChat s envModel admin_user messages upstream logs =
        (.success ""
          (usageOrEmpty (chatUpstreamResp s envModel messages upstream).body.usage),
         logs ++ [e]) ∧
      e.reply = "") ∧
    (∀ body, upstreamM (orElseStr (some sm.model) "gpt-4o-mini") messagesM = .ok body →
      (body.choices = [] ∨ ∃ rest, body.choices = none :: rest) →
      callChat sm upstreamM messagesM = .ok "" ∧
      ∃ e : MemLogEntry,
        superChatMem sm nowStr admin_userM messagesM upstreamM logsM =
          (.success "", e :: logsM) ∧
        e.reply = "") := by
  have hfc : firstChoiceContent (chatUpstreamResp s envModel messages upstream).body = "" := by
    rcases hnone with h | ⟨rest, h⟩ <;> simp [firstChoiceContent, h]
  unfold chatUpstreamResp at hok hfc ⊢
  constructor
  · refine ⟨⟨logs.length + 1, admin_user, "super",
      buildMessages s.system_prompt messages, "",
      orNullNat (usageOrEmpty (upstream (orElseStr (some s.model) envModel)
        (buildMessages s.system_prompt messages)).body.usage).prompt_tokens,
      orNullNat (usageOrEmpty (upstream (orElseStr (some s.model) envModel)
        (buildMessages s.system_prompt messages)).body.usage).completion_tokens⟩,
      ?_, rfl⟩
    simp [superChat, hok, hfc]
  · intro body hbody hbc
    have hfcb : firstChoiceContent body = "" := by
      rcases hbc with h | ⟨rest, h⟩ <;> simp [firstChoiceContent, h]
    have hcc : callChat sm upstreamM messagesM = .ok "" := by
      unfold callChat
      rw [hbody]
      simp [hfcb, orElseStr]
    refine ⟨hcc, ⟨nowStr, "super", admin_userM, messagesM, ""⟩, ?_, rfl⟩
    simp [superChatMem, hcc]

/-- C10 witness: a stubbed ok response with no choices yields a success
with empty reply and one log entry with empty reply. -/
theorem chat_missing_content_empty_reply_witness :
    ∃ e : LogEntry,
      superChat settings0 "m" "superadmin" [⟨"user", "hi"⟩] upstreamNoChoice [] =
        (.success ""
          (usageOrEmpty (chatUpstreamResp settings0 "m" [⟨"user", "hi"⟩] upstreamNoChoice).body.usage),
         [] ++ [e]) ∧
      e.reply = "" :=
  (chat_missing_content_empty_reply settings0 "m" "superadmin" [⟨"user", "hi"⟩]
    upstreamNoChoice [] settingsMem0 "now" "superadmin" [⟨"user", "hi"⟩]
    upstreamMemNoChoice [] (by decide) (Or.inl (by decide))).1

/-- C8 (amended): the SQLite logs endpoint returns rows most-recent-
first (descending id, given the ascending-id table), capped at the
requested limit with default 50, and when a non-empty query is given
every returned row matches the SQL pattern `like '%q%'` — ASCII-case-
insensitive, with `%` and `_` inside the unescaped interpolated query
acting as wildcards rather than literal substring characters — against
the reply or the serialized message history; in particular limit 2 over
5 inserted rows yields exactly the two newest, newest first. The
in-memory variant filters by literal case-insensitive substring but
ignores the limit parameter entirely, capping at 200. -/
theorem logs_query_shape :
    (∀ (q : Option String) (lim : Nat) (logs : List LogEntry),
      (superLogs q (some lim) logs).length ≤ lim) ∧
    (∀ (q : Option String) (logs : List LogEntry),
      superLogs q none logs = superLogs q (some 50) logs) ∧
    (∀ (q : Option String) (reqLimit : Option Nat) (logs : List LogEntry),
      List.Pairwise (fun a b => a.id < b.id) logs →
      List.Pairwise (fun a b => b.id < a.id) (superLogs q reqLimit logs)) ∧
    (∀ (qs : String) (reqLimit : Option Nat) (logs : List LogEntry) (e : LogEntry),
      qs ≠ "" → e ∈ superLogs (some qs) reqLimit logs →
      (likeContains e.reply qs || likeContains (serializeMessages e.messages) qs) = true) ∧
    superLogs none (some 2) logsSample = [logEntryAt 5, logEntryAt 4] ∧
    (∀ (q : Option String) (l1 l2 : Option Nat) (logsM : List MemLogEntry),
      superLogsMem q l1 logsM = superLogsMem q l2 logsM) ∧
    (∀ (q : Option String) (l1 : Option Nat) (logsM : List MemLogEntry),
      (superLogsMem q l1 logsM).length ≤ 200) := by
  refine ⟨?_, ?_, ?_, ?_, ?_, ?_, ?_⟩
  · intro q lim logs
    simp only [superLogs, Option.getD_some]
    split <;> (rw [List.length_take]; omega)
  · intro q logs
    rfl
  · intro q reqLimit logs h
    simp only [superLogs]
    split
    · exact ((List.pairwise_reverse.mpr (h.filter _)).sublist (List.take_sublist _ _))
    · exact ((List.pairwise_reverse.mpr h).sublist (List.take_sublist _ _))
  · intro qs reqLimit logs e hq hmem
    simp only [superLogs, Option.getD_some] at hmem
    rw [if_pos hq] at hmem
    have h1 := List.mem_of_mem_take hmem
    have h2 := List.mem_reverse.mp h1
    simpa using List.of_mem_filter h2
  · decide
  · intro q l1 l2 logsM
    rfl
  · intro q l1 logsM
    simp only [superLogsMem]
    rw [List.length_take]
    omega

/-- C8 witness: a row returned by a filtered query matches the filter. -/
theorem logs_query_shape_witness :
    (likeContains (logEntryAt 5).reply "re"
      || likeContains (serializeMessages (logEntryAt 5).messages) "re") = true := by
  have h := logs_query_shape.2.2.2.1 "re" (some 50) logsSample (logEntryAt 5)
    (by decide) (by decide)
  exact h

/-- C8 counterexample: the in-memory logs endpoint queried with limit 2
after 5 insertions returns all 5 entries, not the claimed 2 — the
handler never reads the limit parameter; and the SQLite filter is not a
substring match: the query `r_p` returns the row whose reply is
`reply`, although `r_p` occurs as a literal substring neither in the
reply nor in the serialized messages — `_` is a LIKE wildcard. -/
theorem logs_mem_ignores_limit :
    (superLogsMem none (some 2) memLogsSample).length = 5 ∧
    ¬ (superLogsMem none (some 2) memLogsSample).length = 2 ∧
    superLogs (some "r_p") (some 50) [logEntryAt 1] = [logEntryAt 1] ∧
    containsStr (lowerStr (logEntryAt 1).reply) (lowerStr "r_p") = false ∧
    containsStr (lowerStr (serializeMessages (logEntryAt 1).messages))
      (lowerStr "r_p") = false := by
  decide

end MicronForce
